import Mathlib

/-!
Verification of the go-nakadi event-type API (`events.go`).

The Go source is shallowly embedded: `time.Duration` and `time.Time` become
`Nat` (nanoseconds; overflow plays no role in any property below), Go slices
and pointers returned to the caller become `Option` (with `none` standing for
Go `nil`), and a Go `(value, error)` pair becomes an explicit pair with an
`Option String` error component.  Error values are modelled by their message
strings, `errors.Wrap(err, msg)` producing `msg ++ ": " ++ err` as in
`pkg/errors`.

The HTTP helper methods (`httpGET`, `httpPOST`, `httpPUT`, `httpDELETE`), the
`Client` struct, the `problemJSON` struct and the three package default
durations live in the client file, which is not part of the embedded source;
they are modelled from the spec, each such definition marked
`Modelled from the spec:` in its doc comment.  The transport round trip itself
is abstracted as an explicit `outcome` argument to each operation: the
operations' own control flow (status checks, problem decoding, wrapping,
which URL and which backoff instance each call uses) is transliterated from
`events.go`.
-/

namespace Nakadi

/-- Model of `errors.Wrap err msg` from pkg/errors: the resulting error
message is the context message, a colon and the wrapped error's message. -/
def wrap (err msg : String) : String := msg ++ ": " ++ err

/-- Predicate `containsSub sub s` holds when `sub` occurs contiguously inside `s`. -/
def containsSub (sub s : String) : Prop := ∃ p q, s = p ++ sub ++ q

/-- Struct `EventTypeSchema` from events.go; `time.Time` is embedded as `Nat`. -/
structure EventTypeSchema where
  Version : String
  «Type» : String
  Schema : String
  CreatedAt : Nat
deriving DecidableEq

/-- Struct `EventTypeStatistics` from events.go. -/
structure EventTypeStatistics where
  MessagesPerMinute : Int
  MessageSize : Int
  ReadParallelism : Int
  WriteParallelism : Int
deriving DecidableEq

/-- Struct `EventTypeOptions` from events.go. -/
structure EventTypeOptions where
  RetentionTime : Int
deriving DecidableEq

/-- Struct `EventType` from events.go; pointer-valued fields become `Option`. -/
structure EventType where
  Name : String
  OwningApplication : String
  Category : String
  EnrichmentStrategies : List String
  PartitionStrategy : String
  CompatibilityMode : String
  Schema : Option EventTypeSchema
  PartitionKeyFields : List String
  DefaultStatistics : Option EventTypeStatistics
  Options : Option EventTypeOptions
  CreatedAt : Nat
  UpdatedAt : Nat
deriving DecidableEq

/-- Struct `EventOptions` from events.go; the three `time.Duration` fields are
embedded as `Nat` nanoseconds. -/
structure EventOptions where
  Retry : Bool
  InitialRetryInterval : Nat
  MaxRetryInterval : Nat
  MaxElapsedTime : Nat
deriving DecidableEq

/-- Modelled from the spec: the package-level defaults
`defaultInitialRetryInterval`, `defaultMaxRetryInterval` and
`defaultMaxElapsedTime` are declared in the client file, which is outside the
embedded source, and the spec fixes no concrete values for them; they are
therefore threaded through as parameters. -/
structure Defaults where
  defaultInitialRetryInterval : Nat
  defaultMaxRetryInterval : Nat
  defaultMaxElapsedTime : Nat
deriving DecidableEq

/-- Method `(*EventOptions).withDefaults` from events.go.  The Go receiver is a
possibly-nil pointer, embedded as `Option EventOptions`; the Go zero value of
`EventOptions` is all-zero/false.  The function works on a copy
(`copyOptions`) and never mutates the caller's value — in this pure embedding
the input is taken by value, so the frame condition is structural. -/
def withDefaults (d : Defaults) (o : Option EventOptions) : EventOptions :=
  let copyOptions : EventOptions :=
    match o with
    | some v => v
    | none =>
      { Retry := false, InitialRetryInterval := 0, MaxRetryInterval := 0, MaxElapsedTime := 0 }
  let copyOptions :=
    if copyOptions.InitialRetryInterval = 0 then
      { copyOptions with InitialRetryInterval := d.defaultInitialRetryInterval }
    else copyOptions
  let copyOptions :=
    if copyOptions.MaxRetryInterval = 0 then
      { copyOptions with MaxRetryInterval := d.defaultMaxRetryInterval }
    else copyOptions
  let copyOptions :=
    if copyOptions.MaxElapsedTime = 0 then
      { copyOptions with MaxElapsedTime := d.defaultMaxElapsedTime }
    else copyOptions
  copyOptions

/-- Backoff policy carried by a `backoff.BackOff` value: either
`backoff.StopBackOff` or `backoff.ExponentialBackOff` with the three knobs
that `NewEventAPI` sets on it. -/
inductive BackoffPolicy
  | stop
  | exponential (initialInterval maxInterval maxElapsedTime : Nat)
deriving DecidableEq

/-- One `backoff.BackOff` instance.  In Go this is a pointer to a mutable
iterator state; `id` models the allocation identity (the pointer), so that
two calls using the same `id` share one mutable countdown and a freshly
instantiated iterator would carry a fresh `id`. -/
structure BackOff where
  id : Nat
  policy : BackoffPolicy
deriving DecidableEq

/-- Modelled from the spec: the `Client` struct lives in the client file,
outside the embedded source; per the spec only its base URL `{base}`
(`nakadiURL` in events.go) is relevant to the event API. -/
structure Client where
  nakadiURL : String
deriving DecidableEq

/-- Struct `EventAPI` from events.go: the client and the single stored backoff. -/
structure EventAPI where
  client : Client
  backOff : BackOff
deriving DecidableEq

/-- Constructor `NewEventAPI` from events.go.  `allocId` models the address of the one
backoff instance the constructor allocates (`backoff.NewExponentialBackOff()`
resp. `&backoff.StopBackOff{}`). -/
def NewEventAPI (d : Defaults) (allocId : Nat) (client : Client)
    (options : Option EventOptions) : EventAPI :=
  let options := withDefaults d options
  let backOff : BackOff :=
    if options.Retry then
      { id := allocId,
        policy := .exponential options.InitialRetryInterval options.MaxRetryInterval
          options.MaxElapsedTime }
    else
      { id := allocId, policy := .stop }
  { client := client, backOff := backOff }

/-- Method `(*EventAPI).eventURL` from events.go:
`fmt.Sprintf("%s/event-types/%s", e.client.nakadiURL, name)`. -/
def EventAPI.eventURL (e : EventAPI) (name : String) : String :=
  e.client.nakadiURL ++ "/event-types/" ++ name

/-- Method `(*EventAPI).eventBaseURL` from events.go:
`fmt.Sprintf("%s/event-types", e.client.nakadiURL)`. -/
def EventAPI.eventBaseURL (e : EventAPI) : String :=
  e.client.nakadiURL ++ "/event-types"

/-- HTTP method of a call issued by the event API. -/
inductive HTTPMethod
  | GET
  | POST
  | PUT
  | DELETE
deriving DecidableEq

/-- The call each operation hands to the HTTP helpers: the method, the URL,
the backoff instance passed along, and the context message for wrapping
(`none` for `httpPOST`/`httpPUT`, whose callers wrap themselves). -/
structure HTTPCall where
  method : HTTPMethod
  url : String
  backOff : BackOff
  wrapMsg : Option String
deriving DecidableEq

/-- The call `List` issues (events.go line 117):
`e.client.httpGET(e.backOff, e.eventBaseURL(), &eventTypes, "unable to request event types")`. -/
def EventAPI.listCall (e : EventAPI) : HTTPCall :=
  { method := .GET, url := e.eventBaseURL, backOff := e.backOff,
    wrapMsg := some "unable to request event types" }

/-- The call `Get` issues (events.go line 127):
`e.client.httpGET(e.backOff, e.eventURL(name), eventType, "unable to request event types")`. -/
def EventAPI.getCall (e : EventAPI) (name : String) : HTTPCall :=
  { method := .GET, url := e.eventURL name, backOff := e.backOff,
    wrapMsg := some "unable to request event types" }

/-- The call `Create` issues (events.go line 136):
`e.client.httpPOST(e.backOff, e.eventBaseURL(), eventType)`. -/
def EventAPI.createCall (e : EventAPI) : HTTPCall :=
  { method := .POST, url := e.eventBaseURL, backOff := e.backOff, wrapMsg := none }

/-- The call `Update` issues (events.go line 156):
`e.client.httpPUT(e.backOff, e.eventURL(eventType.Name), eventType)`. -/
def EventAPI.updateCall (e : EventAPI) (eventType : EventType) : HTTPCall :=
  { method := .PUT, url := e.eventURL eventType.Name, backOff := e.backOff, wrapMsg := none }

/-- The call `Delete` issues (events.go line 176):
`e.client.httpDELETE(e.backOff, e.eventURL(name), "unable to delete event type")`. -/
def EventAPI.deleteCall (e : EventAPI) (name : String) : HTTPCall :=
  { method := .DELETE, url := e.eventURL name, backOff := e.backOff,
    wrapMsg := some "unable to delete event type" }

/-- Modelled from the spec: `problemJSON` is declared in the client file,
outside the embedded source; the spec's error-body contract is a JSON object
with at least a `detail` string field. -/
structure problemJSON where
  Detail : String
deriving DecidableEq

/-- One HTTP response as the event API inspects it: the status code, and the
verdict of `json.NewDecoder(response.Body).Decode(&problem)` on the body
(`Except.error` when the body does not decode as a problem payload). -/
structure HTTPResponse where
  statusCode : Nat
  body : Except String problemJSON

/-- Modelled from the spec: `Client.httpGET` (client file, outside the
embedded source) performs the round trip with retries, decodes the body into
the target on success, and on any failure wraps the error with the supplied
message before returning it.  The round-trip-and-decode verdict is the
`outcome` argument; the decoded target value is its `Except.ok` payload. -/
def httpGET (msg : String) (outcome : Except String α) : Except String α :=
  match outcome with
  | .error err => .error (wrap err msg)
  | .ok a => .ok a

/-- Modelled from the spec: `Client.httpDELETE` (client file, outside the
embedded source) performs the round trip with retries and wraps any failure
with the supplied message. -/
def httpDELETE (msg : String) (outcome : Except String Unit) : Except String Unit :=
  match outcome with
  | .error err => .error (wrap err msg)
  | .ok a => .ok a

/-- Method `(*EventAPI).List` from events.go.  `eventTypes` is initialised to the
empty non-nil slice `[]*EventType{}`; `outcome` is the httpGET verdict, its
`Except.ok` payload being the decoded collection left in `eventTypes`.  The
returned pair is Go's `([]*EventType, error)`: `none` in the first component
is a nil slice, `none` in the second a nil error. -/
def EventAPI.list (e : EventAPI) (outcome : Except String (List EventType)) :
    Option (List EventType) × Option String :=
  match httpGET "unable to request event types" outcome with
  | .error err => (none, some err)
  | .ok eventTypes => (some eventTypes, none)

/-- Method `(*EventAPI).Get` from events.go.  The target is the fresh non-nil
pointer `&EventType{}`; the returned pair is Go's `(*EventType, error)`. -/
def EventAPI.get (e : EventAPI) (name : String) (outcome : Except String EventType) :
    Option EventType × Option String :=
  match httpGET "unable to request event types" outcome with
  | .error err => (none, some err)
  | .ok eventType => (some eventType, none)

/-- Method `(*EventAPI).Create` from events.go.  `post` is the result of `httpPOST`:
a transport error, or a response whose status and problem-decode verdict are
inspected exactly as in the source (success status 201, otherwise the problem
payload's detail, or the decode error). -/
def EventAPI.create (e : EventAPI) (eventType : EventType)
    (post : Except String HTTPResponse) : Except String Unit :=
  match post with
  | .error err => .error (wrap err "unable to create event type")
  | .ok response =>
    if response.statusCode ≠ 201 then
      match response.body with
      | .error err => .error (wrap err "unable to decode response body")
      | .ok problem => .error ("unable to create event type: " ++ problem.Detail)
    else
      .ok ()

/-- Method `(*EventAPI).Update` from events.go: as `Create` but via `httpPUT` to
`eventURL(eventType.Name)` with success status 200. -/
def EventAPI.update (e : EventAPI) (eventType : EventType)
    (put : Except String HTTPResponse) : Except String Unit :=
  match put with
  | .error err => .error (wrap err "unable to update event type")
  | .ok response =>
    if response.statusCode ≠ 200 then
      match response.body with
      | .error err => .error (wrap err "unable to decode response body")
      | .ok problem => .error ("unable to update event type: " ++ problem.Detail)
    else
      .ok ()

/-- Method `(*EventAPI).Delete` from events.go: returns `httpDELETE`'s error
verbatim; `none` is Go's nil error. -/
def EventAPI.delete (e : EventAPI) (name : String) (outcome : Except String Unit) :
    Option String :=
  match httpDELETE "unable to delete event type" outcome with
  | .error err => some err
  | .ok _ => none

/-- Modelled from the spec: the current interval of the exponential backoff
after `n` failed attempts — it starts at the initial value, doubles each
attempt and caps at the maximum interval (spec section 4.2). -/
def intervalAt (init maxI : Nat) : Nat → Nat
  | 0 => init
  | n + 1 => min (2 * intervalAt init maxI n) maxI

/-- Modelled from the spec: one step of the backoff iterator.  `StopBackOff`
always halts; the exponential policy halts once the elapsed time exceeds the
maximum elapsed time and otherwise yields the current interval with
randomized jitter applied (`jitter` abstracts the randomization). -/
def nextBackOff (pol : BackoffPolicy) (jitter : Nat → Nat → Nat)
    (n elapsed : Nat) : Option Nat :=
  match pol with
  | .stop => none
  | .exponential init maxI maxE =>
    if maxE < elapsed then none
    else some (jitter n (intervalAt init maxI n))

/-- Modelled from the spec: the retry loop the HTTP helpers wrap around the
transport round trip (spec section 4.2).  `outcomes n` is the verdict of the
`n`-th attempt; on failure the iterator either halts — returning the error of
the last attempt — or sleeps the yielded interval and retries.  `fuel` bounds
the recursion; every theorem below avoids the fuel-exhaustion branch.
The result pairs the final verdict with the number of attempts performed. -/
def retryNotify (pol : BackoffPolicy) (jitter : Nat → Nat → Nat)
    (outcomes : Nat → Except E A) : Nat → Nat → Nat → Except E A × Nat
  | fuel, n, elapsed =>
    match outcomes n with
    | .ok a => (.ok a, n + 1)
    | .error err =>
      match nextBackOff pol jitter n elapsed with
      | none => (.error err, n + 1)
      | some wait =>
        match fuel with
        | 0 => (.error err, n + 1)
        | fuel + 1 => retryNotify pol jitter outcomes fuel (n + 1) (elapsed + wait)

/-- A concrete event type used to instantiate theorems at specific inputs. -/
def sampleEventType : EventType :=
  { Name := "order.created", OwningApplication := "order-service", Category := "business",
    EnrichmentStrategies := ["metadata_enrichment"], PartitionStrategy := "hash",
    CompatibilityMode := "forward",
    Schema := some { Version := "1.0.0", «Type» := "json_schema",
                     Schema := "properties-of-order", CreatedAt := 0 },
    PartitionKeyFields := ["order_id"], DefaultStatistics := none, Options := none,
    CreatedAt := 0, UpdatedAt := 0 }

theorem withDefaults_Retry (d : Defaults) (o : EventOptions) :
    (withDefaults d (some o)).Retry = o.Retry := by
  simp only [withDefaults]
  split <;> split <;> split <;> rfl

/-- Claim C6: when the remote collection is empty and the HTTP call succeeds,
List returns the empty non-nil sequence of event types and a nil error —
never a nil collection and never an error. -/
theorem C6_list_empty_collection (e : EventAPI) :
    e.list (.ok []) = (some [], none) := rfl

/-- Claim C9: List and Get never return a partial result together with an
error: the error is non-nil exactly when the result is nil, and the error is
nil exactly when the result is non-nil. -/
theorem C9_no_partial_results (e : EventAPI) (name : String)
    (lOutcome : Except String (List EventType)) (gOutcome : Except String EventType) :
    ((e.list lOutcome).2.isSome ↔ (e.list lOutcome).1 = none)
  ∧ ((e.list lOutcome).2 = none ↔ (e.list lOutcome).1.isSome)
  ∧ ((e.get name gOutcome).2.isSome ↔ (e.get name gOutcome).1 = none)
  ∧ ((e.get name gOutcome).2 = none ↔ (e.get name gOutcome).1.isSome) := by
  cases lOutcome <;> cases gOutcome <;>
    simp [EventAPI.list, EventAPI.get, httpGET]

/-- Claim C10: the item URL is exactly the base URL, "/event-types/" and the
name; the empty name is not rejected locally, so Get and Delete with the
empty name address the collection path with a trailing slash and proceed with
the request rather than returning a local validation error. -/
theorem C10_eventURL_no_local_validation (e : EventAPI) (name : String) :
    e.eventURL name = e.client.nakadiURL ++ "/event-types/" ++ name
  ∧ (e.getCall name).url = e.eventURL name
  ∧ (e.deleteCall name).url = e.eventURL name
  ∧ e.eventURL "" = e.eventBaseURL ++ "/"
  ∧ e.delete "" (.ok ()) = none
  ∧ (∀ et, e.get "" (.ok et) = (some et, none)) := by
  refine ⟨rfl, rfl, rfl, ?_, rfl, fun et => rfl⟩
  show e.client.nakadiURL ++ "/event-types/" ++ "" = e.client.nakadiURL ++ "/event-types" ++ "/"
  rw [String.append_empty, String.append_assoc]
  rfl

/-- Claim C8: withDefaults returns a copy in which each zero duration field
is replaced by the package default while nonzero fields and the Retry flag
are kept; the nil pointer yields the all-default no-retry options, and
NewEventAPI therefore accepts nil options, yielding the no-retry API.  The
embedding is pure and withDefaults consumes its argument by value, so the
caller's original options value is unchanged by construction. -/
theorem C8_withDefaults_fills_zero_fields (d : Defaults) (o : EventOptions)
    (a : Nat) (c : Client) :
    withDefaults d none =
      { Retry := false, InitialRetryInterval := d.defaultInitialRetryInterval,
        MaxRetryInterval := d.defaultMaxRetryInterval,
        MaxElapsedTime := d.defaultMaxElapsedTime }
  ∧ (withDefaults d (some o)).Retry = o.Retry
  ∧ (withDefaults d (some o)).InitialRetryInterval =
      (if o.InitialRetryInterval = 0 then d.defaultInitialRetryInterval
       else o.InitialRetryInterval)
  ∧ (withDefaults d (some o)).MaxRetryInterval =
      (if o.MaxRetryInterval = 0 then d.defaultMaxRetryInterval else o.MaxRetryInterval)
  ∧ (withDefaults d (some o)).MaxElapsedTime =
      (if o.MaxElapsedTime = 0 then d.defaultMaxElapsedTime else o.MaxElapsedTime)
  ∧ (NewEventAPI d a c none).backOff.policy = .stop := by
  obtain ⟨r, i, m, t⟩ := o
  refine ⟨rfl, ?_, ?_, ?_, ?_, rfl⟩ <;>
    · simp only [withDefaults]
      repeat' split
      all_goals simp_all

/-- Claim C7 counterexample: List and Get wrap their errors with the
identical context message "unable to request event types", so two distinct
operations do not carry distinct contextual messages. -/
theorem C7_counterexample :
    (EventAPI.list { client := { nakadiURL := "https://nakadi.example.com" },
                     backOff := { id := 0, policy := .stop } }
       (.error "connection refused")).2
      = (EventAPI.get { client := { nakadiURL := "https://nakadi.example.com" },
                        backOff := { id := 0, policy := .stop } }
          "order.created" (.error "connection refused")).2
  ∧ (EventAPI.list { client := { nakadiURL := "https://nakadi.example.com" },
                     backOff := { id := 0, policy := .stop } }
       (.error "connection refused")).2
      = some "unable to request event types: connection refused" := ⟨rfl, rfl⟩

/-- Claim C7 amended: every error returned by the five operations is wrapped
with that operation's fixed context message, and no expected failure mode
panics (each operation is a total function into error values); however List
and Get share one identical message, while the Create, Update and Delete
messages are pairwise distinct and distinct from the shared one. -/
theorem C7_amended_error_wrapping (e : EventAPI) (name : String)
    (et : EventType) (err : String) :
    (e.list (.error err)).2 = some (wrap err "unable to request event types")
  ∧ (e.get name (.error err)).2 = some (wrap err "unable to request event types")
  ∧ e.create et (.error err) = .error (wrap err "unable to create event type")
  ∧ e.update et (.error err) = .error (wrap err "unable to update event type")
  ∧ e.delete name (.error err) = some (wrap err "unable to delete event type")
  ∧ ("unable to request event types" : String) ≠ "unable to create event type"
  ∧ ("unable to request event types" : String) ≠ "unable to update event type"
  ∧ ("unable to request event types" : String) ≠ "unable to delete event type"
  ∧ ("unable to create event type" : String) ≠ "unable to update event type"
  ∧ ("unable to create event type" : String) ≠ "unable to delete event type"
  ∧ ("unable to update event type" : String) ≠ "unable to delete event type" := by
  refine ⟨rfl, rfl, rfl, rfl, rfl, ?_, ?_, ?_, ?_, ?_, ?_⟩ <;> decide

/-- Claim C4: Create returns a nil error exactly when the response status is
201; on any other status it returns an error whose message contains the
decoded problem payload's detail string, and when the body does not decode it
returns the wrapped decode error instead. -/
theorem C4_create_status_and_problem (e : EventAPI) (et : EventType)
    (r : HTTPResponse) (p : problemJSON) (derr : String) :
    ((e.create et (.ok r) = .ok ()) ↔ r.statusCode = 201)
  ∧ (r.statusCode ≠ 201 → r.body = .ok p →
      ∃ m, e.create et (.ok r) = .error m ∧ containsSub p.Detail m)
  ∧ (r.statusCode ≠ 201 → r.body = .error derr →
      e.create et (.ok r) = .error (wrap derr "unable to decode response body")) := by
  refine ⟨⟨fun h => ?_, fun h => ?_⟩, fun hne hp => ?_, fun hne hd => ?_⟩
  · by_contra hne
    cases hb : r.body <;> simp [EventAPI.create, hne, hb] at h
  · simp [EventAPI.create, h]
  · refine ⟨"unable to create event type: " ++ p.Detail, ?_, ?_⟩
    · simp [EventAPI.create, hne, hp]
    · exact ⟨"unable to create event type: ", "", (String.append_empty _).symm⟩
  · simp [EventAPI.create, hne, hd]

/-- Claim C4 witness: a 201 response yields a nil error, and a 400 response
whose body does not decode yields the wrapped decode error. -/
theorem C4_create_witness :
    (409 : Nat) ≠ 201
  ∧ EventAPI.create { client := { nakadiURL := "https://nakadi.example.com" },
                      backOff := { id := 0, policy := .stop } } sampleEventType
      (.ok { statusCode := 201, body := .error "EOF" }) = .ok ()
  ∧ EventAPI.create { client := { nakadiURL := "https://nakadi.example.com" },
                      backOff := { id := 0, policy := .stop } } sampleEventType
      (.ok { statusCode := 400, body := .error "EOF" })
      = .error (wrap "EOF" "unable to decode response body") := by
  have h1 := C4_create_status_and_problem
    { client := { nakadiURL := "https://nakadi.example.com" },
      backOff := { id := 0, policy := .stop } } sampleEventType
    { statusCode := 201, body := .error "EOF" } { Detail := "conflict" } "EOF"
  have h2 := C4_create_status_and_problem
    { client := { nakadiURL := "https://nakadi.example.com" },
      backOff := { id := 0, policy := .stop } } sampleEventType
    { statusCode := 400, body := .error "EOF" } { Detail := "conflict" } "EOF"
  exact ⟨by decide, h1.1.mpr rfl, h2.2.2 (by decide) rfl⟩

/-- Claim C5: Update issues a PUT whose URL is the base URL, "/event-types/"
and the entity's Name field; it returns a nil error exactly when the status
is 200, and on any other status surfaces the decoded problem payload's detail
string in the error message (or the wrapped decode error when the body does
not decode). -/
theorem C5_update_put_url_and_status (e : EventAPI) (et : EventType)
    (r : HTTPResponse) (p : problemJSON) (derr : String) :
    (e.updateCall et).method = .PUT
  ∧ (e.updateCall et).url = e.client.nakadiURL ++ "/event-types/" ++ et.Name
  ∧ ((e.update et (.ok r) = .ok ()) ↔ r.statusCode = 200)
  ∧ (r.statusCode ≠ 200 → r.body = .ok p →
      ∃ m, e.update et (.ok r) = .error m ∧ containsSub p.Detail m)
  ∧ (r.statusCode ≠ 200 → r.body = .error derr →
      e.update et (.ok r) = .error (wrap derr "unable to decode response body")) := by
  refine ⟨rfl, rfl, ⟨fun h => ?_, fun h => ?_⟩, fun hne hp => ?_, fun hne hd => ?_⟩
  · by_contra hne
    cases hb : r.body <;> simp [EventAPI.update, hne, hb] at h
  · simp [EventAPI.update, h]
  · refine ⟨"unable to update event type: " ++ p.Detail, ?_, ?_⟩
    · simp [EventAPI.update, hne, hp]
    · exact ⟨"unable to update event type: ", "", (String.append_empty _).symm⟩
  · simp [EventAPI.update, hne, hd]

/-- Claim C5 witness: concrete PUT URL for the sample event type, and a 200
response yields a nil error. -/
theorem C5_update_witness :
    (404 : Nat) ≠ 200
  ∧ EventAPI.update { client := { nakadiURL := "https://nakadi.example.com" },
                      backOff := { id := 1, policy := .stop } } sampleEventType
      (.ok { statusCode := 200, body := .error "EOF" }) = .ok ()
  ∧ (EventAPI.updateCall { client := { nakadiURL := "https://nakadi.example.com" },
                           backOff := { id := 1, policy := .stop } } sampleEventType).url
      = "https://nakadi.example.com" ++ "/event-types/" ++ "order.created" := by
  have h := C5_update_put_url_and_status
    { client := { nakadiURL := "https://nakadi.example.com" },
      backOff := { id := 1, policy := .stop } } sampleEventType
    { statusCode := 200, body := .error "EOF" } { Detail := "x" } "EOF"
  exact ⟨by decide, h.2.2.1.mpr rfl, h.2.1⟩

/-- Claim C3: with the Retry flag false the stop policy is installed, any two
no-retry option values yield identical EventAPIs (the interval and
elapsed-time options have no effect), and the retry loop under the stop
policy performs exactly one attempt, returning that attempt's verdict,
regardless of whether it fails. -/
theorem C3_no_retry_single_attempt (d : Defaults) (a : Nat) (c : Client)
    (o o' : EventOptions) (ho : o.Retry = false) (ho' : o'.Retry = false)
    (jitter : Nat → Nat → Nat) (outcomes : Nat → Except String Unit) (fuel : Nat) :
    (NewEventAPI d a c (some o)).backOff.policy = .stop
  ∧ NewEventAPI d a c (some o) = NewEventAPI d a c (some o')
  ∧ retryNotify .stop jitter outcomes fuel 0 0 = (outcomes 0, 1) := by
  have hs : ∀ oo : EventOptions, oo.Retry = false →
      NewEventAPI d a c (some oo) = { client := c, backOff := { id := a, policy := .stop } } := by
    intro oo hoo
    simp [NewEventAPI, withDefaults_Retry, hoo]
  refine ⟨by rw [hs o ho], by rw [hs o ho, hs o' ho'], ?_⟩
  cases h : outcomes 0 <;> simp [retryNotify, nextBackOff, h]

/-- Claim C3 witness: two no-retry option values with different intervals
produce the same EventAPI, and a failing attempt under the stop policy is not
retried. -/
theorem C3_no_retry_witness :
    NewEventAPI ⟨5, 6, 7⟩ 0 { nakadiURL := "https://nakadi.example.com" }
      (some { Retry := false, InitialRetryInterval := 1, MaxRetryInterval := 2,
              MaxElapsedTime := 3 })
      = NewEventAPI ⟨5, 6, 7⟩ 0 { nakadiURL := "https://nakadi.example.com" }
        (some { Retry := false, InitialRetryInterval := 100, MaxRetryInterval := 200,
                MaxElapsedTime := 300 })
  ∧ retryNotify .stop (fun _ iv => iv) (fun _ => (.error "boom" : Except String Unit)) 9 0 0
      = (.error "boom", 1) := by
  have h := C3_no_retry_single_attempt ⟨5, 6, 7⟩ 0
    { nakadiURL := "https://nakadi.example.com" }
    { Retry := false, InitialRetryInterval := 1, MaxRetryInterval := 2, MaxElapsedTime := 3 }
    { Retry := false, InitialRetryInterval := 100, MaxRetryInterval := 200,
      MaxElapsedTime := 300 }
    rfl rfl (fun _ iv => iv) (fun _ => (.error "boom" : Except String Unit)) 9
  exact ⟨h.2.1, h.2.2⟩

/-- Claim C2: with retries enabled the interval starts at
InitialRetryInterval, doubles each attempt (randomized jitter abstracted as a
function of the current interval), never exceeds MaxRetryInterval, the
sequence halts once MaxElapsedTime has been exceeded — returning the error of
the last attempt — and NewEventAPI wires exactly these three options into the
exponential policy. -/
theorem C2_exponential_backoff_policy (init maxI maxE : Nat)
    (jitter : Nat → Nat → Nat) (outcomes : Nat → Except String Unit)
    (fuel n elapsed : Nat) (err : String)
    (hcap : init ≤ maxI) (herr : outcomes n = .error err) (helapsed : maxE < elapsed)
    (d : Defaults) (a : Nat) (c : Client) (o : EventOptions) (hretry : o.Retry = true) :
    intervalAt init maxI 0 = init
  ∧ (∀ k, intervalAt init maxI (k + 1) = min (2 * intervalAt init maxI k) maxI)
  ∧ (∀ k, intervalAt init maxI k ≤ maxI)
  ∧ retryNotify (.exponential init maxI maxE) jitter outcomes fuel n elapsed
      = (.error err, n + 1)
  ∧ (NewEventAPI d a c (some o)).backOff.policy
      = .exponential (withDefaults d (some o)).InitialRetryInterval
          (withDefaults d (some o)).MaxRetryInterval
          (withDefaults d (some o)).MaxElapsedTime := by
  refine ⟨rfl, fun k => by simp [intervalAt], ?_, ?_, ?_⟩
  · intro k
    induction k with
    | zero => exact hcap
    | succ k ih => simp only [intervalAt]; exact Nat.min_le_right _ _
  · have hnb : nextBackOff (.exponential init maxI maxE) jitter n elapsed = none := by
      simp [nextBackOff, helapsed]
    simp [retryNotify, herr, hnb]
  · simp [NewEventAPI, withDefaults_Retry, hretry]

/-- Claim C2 witness: concrete exponential run with initial interval 10, cap
100 and elapsed budget 5 already exceeded at 6: the failing attempt is not
retried and its error is returned; the policy is wired from the options. -/
theorem C2_exponential_backoff_witness :
    (10 : Nat) ≤ 100
  ∧ (5 : Nat) < 6
  ∧ intervalAt 10 100 0 = 10
  ∧ intervalAt 10 100 3 ≤ 100
  ∧ retryNotify (.exponential 10 100 5) (fun _ iv => iv)
      (fun _ => (.error "timeout" : Except String Unit)) 3 0 6 = (.error "timeout", 1)
  ∧ (NewEventAPI ⟨1, 2, 3⟩ 0 { nakadiURL := "https://nakadi.example.com" }
      (some { Retry := true, InitialRetryInterval := 10, MaxRetryInterval := 100,
              MaxElapsedTime := 5 })).backOff.policy = .exponential 10 100 5 := by
  have h := C2_exponential_backoff_policy 10 100 5 (fun _ iv => iv)
    (fun _ => (.error "timeout" : Except String Unit)) 3 0 6 "timeout"
    (by decide) rfl (by decide) ⟨1, 2, 3⟩ 0 { nakadiURL := "https://nakadi.example.com" }
    { Retry := true, InitialRetryInterval := 10, MaxRetryInterval := 100, MaxElapsedTime := 5 }
    rfl
  exact ⟨by decide, by decide, h.1, h.2.2.1 3, h.2.2.2.1, h.2.2.2.2⟩

/-- Claim C1 (evaluation at the failing input): the EventAPI built by
NewEventAPI with retries enabled holds the single backoff instance allocated
at construction, and every operation invocation passes that same shared
instance to the HTTP helpers — no invocation instantiates a fresh iterator,
so the countdown state one call consumes is the very state the next call
receives. -/
theorem C1_backoff_instance_shared :
    let e : EventAPI := NewEventAPI ⟨10, 100, 1000⟩ 7
      { nakadiURL := "https://nakadi.example.com" }
      (some { Retry := true, InitialRetryInterval := 10, MaxRetryInterval := 100,
              MaxElapsedTime := 1000 })
    e.listCall.backOff = e.backOff
  ∧ (e.getCall "order.created").backOff = e.backOff
  ∧ e.createCall.backOff = e.backOff
  ∧ (e.updateCall sampleEventType).backOff = e.backOff
  ∧ (e.deleteCall "order.created").backOff = e.backOff
  ∧ (e.getCall "order.created").backOff = e.listCall.backOff
  ∧ e.backOff = { id := 7, policy := .exponential 10 100 1000 } :=
  ⟨rfl, rfl, rfl, rfl, rfl, rfl, rfl⟩

end Nakadi
